import Mathlib

/-!
Verification of the poker-gto-vision frame-analysis and turn-decision
pipeline.  The frontend client logic is embedded from
`src/frontend/app/page.tsx`; the backend pipeline stages (frame decoder,
signal fusion, text-extraction merge, game-state tracker, decision
engine), whose Python sources are not present in the repository snapshot,
are modelled from the specification.
-/

namespace PokerGtoVision

/-! ## Frontend client (`src/frontend/app/page.tsx`) -/

/-- WebSocket ready states as used by the client code. -/
inductive WsReadyState
  | connecting
  | opened
  | closing
  | closed
  deriving DecidableEq

/-- Backoff delay computed in `ws.onclose` (page.tsx line 133):
`Math.min(2000 + retryCount * 1000, 10000)`. -/
def reconnectDelay (retryCount : Nat) : Nat :=
  min (2000 + retryCount * 1000) 10000

/-- Outcome of the `ws.onclose` handler (page.tsx lines 126-143). -/
inductive CloseAction
  | scheduleRetry (delay : Nat) (nextRetryCount : Nat)
  | terminalFailure
  | noAction
  deriving DecidableEq

/-- The reconnect decision taken by `ws.onclose` (page.tsx lines 131-142):
retry with the computed delay while analyzing and under the attempt
ceiling of 20; at or past the ceiling, set the terminal error message and
stop analysis. -/
def onClose (isAnalyzing : Bool) (retryCount : Nat) : CloseAction :=
  if isAnalyzing = true ∧ retryCount < 20 then
    .scheduleRetry (reconnectDelay retryCount) (retryCount + 1)
  else if 20 ≤ retryCount then
    .terminalFailure
  else
    .noAction

/-- An inbound transport message after the client's `JSON.parse` attempt
(page.tsx lines 99-119): unparseable, a recommendation (with optional
pot size, expected value and reasoning fields), a status message, or a
parsed object with some other `type`. -/
inductive InboundMsg
  | malformed
  | recommendation (action : String)
      (potSize ev reasoning : Option String)
  | statusMsg (message : String)
  | otherType (t : String)
  deriving DecidableEq

/-- Speech text assembled for a recommendation message
(page.tsx lines 107-110). -/
def speechFor (action : String) (potSize ev reasoning : Option String) :
    String :=
  let s := "Hero turn. " ++ action ++ "."
  let s := match potSize with
    | some p => s ++ " Pot is " ++ p ++ "."
    | none => s
  let s := match ev with
    | some e => s ++ " Expected value " ++ e ++ "."
    | none => s
  match reasoning with
  | some r => s ++ " " ++ r ++ "."
  | none => s

/-- The `ws.onmessage` handler (page.tsx lines 99-119): given the current
displayed recommendation, return the new displayed recommendation and the
speech output, if any.  The whole handler body sits in a try/catch, so
every message shape yields a result and no error escapes. -/
def onMessage (lastRecommendation : String) (msg : InboundMsg) :
    String × Option String :=
  match msg with
  | .recommendation a p e r => (a, some (speechFor a p e r))
  | .statusMsg _ => (lastRecommendation, none)
  | .otherType _ => (lastRecommendation, none)
  | .malformed => (lastRecommendation, none)

/-- Environment of one tick of the 100 ms frame-capture interval
(page.tsx lines 154-174): which elements exist, the socket state at the
tick, whether a 2d context and a blob were obtained, and the socket state
inside the asynchronous `toBlob` callback. -/
structure TickEnv where
  videoPresent : Bool
  canvasPresent : Bool
  wsStateAtTick : WsReadyState
  ctxAvailable : Bool
  blobCreated : Bool
  wsStateAtCallback : WsReadyState
  deriving DecidableEq

/-- One tick of `startFrameCapture` (page.tsx lines 154-174): `true` iff
a frame is sent on the socket.  The guards mirror the code: the outer
check `video && canvas && ws.readyState === OPEN`, the `ctx` check, and
inside the `toBlob` callback the re-check `blob && readyState === OPEN`. -/
def frameTickSends (e : TickEnv) : Bool :=
  if e.videoPresent = true ∧ e.canvasPresent = true ∧
      e.wsStateAtTick = .opened then
    if e.ctxAvailable = true then
      if e.blobCreated = true ∧ e.wsStateAtCallback = .opened then
        true
      else false
    else false
  else false

/-! ## Backend pipeline, modelled from the specification

The Python backend (`backend/main.py`, `backend/cv/detector.py`,
`backend/cv/ocr.py`, `backend/game/state.py`, `backend/solver/gto.py`)
is referenced throughout the repository docs but its sources are not in
the snapshot, so the stages below are modelled from the specification. -/

/-- Modelled from the spec: the DetectionSignal vector produced by the
missing SignalDetector (`backend/cv/detector.py`) — one confidence in
[0,1] per independent visual cue, represented here in per-mille
(0 … 1000) so that the model is executable. -/
structure DetectionSignal where
  controlsVisible : Nat
  timerActive : Nat
  seatHighlighted : Nat
  deriving DecidableEq

/-- Modelled from the spec: the per-signal confidence thresholds of the
turn-trigger fusion, in the same per-mille scale as the signals. -/
structure Thresholds where
  controls : Nat
  timer : Nat
  highlight : Nat
  deriving DecidableEq

/-- How many of the three signals are above their individual
thresholds. -/
def aboveCount (s : DetectionSignal) (th : Thresholds) : Nat :=
  (if th.controls < s.controlsVisible then 1 else 0) +
  (if th.timer < s.timerActive then 1 else 0) +
  (if th.highlight < s.seatHighlighted then 1 else 0)

/-- Modelled from the spec: the two-of-three quorum rule of the
turn-trigger fusion (spec §4.3). -/
def quorum (s : DetectionSignal) (th : Thresholds) : Bool :=
  decide (2 ≤ aboveCount s th)

/-- Street of a hand, ordered preflop < flop < turn < river. -/
inductive Street
  | preflop
  | flop
  | turn
  | river
  deriving DecidableEq

/-- Numeric rank realising the street order. -/
def Street.rank : Street → Nat
  | .preflop => 0
  | .flop => 1
  | .turn => 2
  | .river => 3

/-- Street implied by the number of visible board cards. -/
def streetOfBoardCount (n : Nat) : Street :=
  if 5 ≤ n then .river
  else if n = 4 then .turn
  else if n = 3 then .flop
  else .preflop

/-- Tracker phase: no hand context, or accumulating a hand. -/
inductive Phase
  | idle
  | handInProgress
  deriving DecidableEq

/-- Modelled from the spec: per-session mutable state owned by the
missing GameStateTracker (`backend/game/state.py`). -/
structure SessionState where
  phase : Phase
  street : Street
  potAmount : ℚ
  boardCards : List String
  stackAmounts : List (Nat × ℚ)
  actionHistory : List String
  turnActive : Bool
  lastTriggerTime : Option Nat
  cooldownWindow : Nat
  deriving DecidableEq

/-- The cooldown gate: true when there is no prior trigger or the
cooldown window has elapsed since the last one. -/
def cooldownExpired (st : SessionState) (now : Nat) : Bool :=
  match st.lastTriggerTime with
  | none => true
  | some t0 => decide (st.cooldownWindow ≤ now - t0)

/-- Modelled from the spec: the fused trigger decision (spec §4.3) —
quorum of two of three signals and an expired cooldown. -/
def triggerFires (st : SessionState) (s : DetectionSignal)
    (th : Thresholds) (now : Nat) : Bool :=
  quorum s th && cooldownExpired st now

/-- Action of a recommendation: fold, call, or raise to a sizing. -/
inductive GtoAction
  | fold
  | call
  | raiseTo (x : ℚ)
  deriving DecidableEq

/-- Modelled from the spec: the Recommendation record. -/
structure Recommendation where
  action : GtoAction
  potSizeDisplay : ℚ
  evEstimate : ℚ
  rationale : String
  deriving DecidableEq

/-- Pot-odds style ratio from the pot and the bet-facing amount. -/
def potOddsOf (pot bet : ℚ) : ℚ :=
  bet / (pot + bet)

/-- Coarse hand-strength proxy from behavioural stats, with the fixed
neutral fallback when stats are unavailable. -/
def estimatedEquity (stats : Option ℚ) : ℚ :=
  match stats with
  | some v => v
  | none => 1 / 2

/-- Modelled from the spec: the action selection of the missing
DecisionEngine (`backend/solver/gto.py`) — compare estimated equity
against pot odds; the equal-equity tie resolves to Call. -/
def chooseAction (pot equity potOdds : ℚ) : GtoAction :=
  if potOdds < equity then .raiseTo pot
  else if equity < potOdds then .fold
  else .call

/-- The most recent bet-facing amount when known, else the zero
default. -/
def betOrZero (betFacing : Option ℚ) : ℚ :=
  match betFacing with
  | some b => b
  | none => 0

/-- Modelled from the spec: the missing DecisionEngine
(`backend/solver/gto.py`).  Always returns exactly one Recommendation;
when the bet-facing amount or the stats are absent it degrades to
defaults and a low-confidence rationale instead of failing. -/
def decisionEngine (st : SessionState) (betFacing stats : Option ℚ) :
    Recommendation :=
  let equity := estimatedEquity stats
  let odds := potOddsOf st.potAmount (betOrZero betFacing)
  { action := chooseAction st.potAmount equity odds
    potSizeDisplay := st.potAmount
    evEstimate := equity - odds
    rationale :=
      if betFacing.isNone || stats.isNone then "low confidence"
      else "equity vs pot odds" }

/-- Modelled from the spec: the per-field-nullable output of the missing
TextExtractor (`backend/cv/ocr.py`) — each field is individually `none`
when recognition of that field failed. -/
structure ExtractedFacts where
  potAmount : Option ℚ
  stackAmounts : Option (List (Nat × ℚ))
  behaviorStats : Option (List (Nat × ℚ))
  deriving DecidableEq

/-- Modelled from the spec: merging one extraction cycle into the session
state — a field that failed to parse keeps its previous known value, and
a failure of one field does not block the others. -/
def mergeFacts (st : SessionState) (f : ExtractedFacts) : SessionState :=
  { st with
    potAmount := match f.potAmount with
      | some v => v
      | none => st.potAmount
    stackAmounts := match f.stackAmounts with
      | some m => m
      | none => st.stackAmounts }

/-- Modelled from the spec: the new-hand reset
(`HandInProgress → Idle → HandInProgress`) — the board clears, the street
restarts at the newly observed street, and the turn flag drops. -/
def newHandReset (st : SessionState) (board : List String) :
    SessionState :=
  let idleSt : SessionState := { st with
    phase := .idle
    street := .preflop
    boardCards := []
    turnActive := false }
  { idleSt with
    phase := .handInProgress
    street := streetOfBoardCount board.length
    boardCards := board }

/-- Modelled from the spec: the street/board update of the missing
GameStateTracker.  The street advances only forward from board-card
count signals; a regression is treated as a new-hand reset (flagged in
the second component), never as an error. -/
def updateStreet (st : SessionState) (board : List String) :
    SessionState × Bool :=
  let obs := streetOfBoardCount board.length
  if obs.rank < st.street.rank then
    (newHandReset st board, true)
  else
    ({ st with
        phase := .handInProgress
        street := obs
        boardCards := board }, false)

/-- Modelled from the spec: the missing FrameDecoder — an opaque buffer
is modelled as a width/height header followed by pixel data; any buffer
whose payload does not match the header fails to decode. -/
def decodeFrame (buf : List Nat) : Option (List Nat) :=
  match buf with
  | w :: h :: pixels => if pixels.length = w * h then some pixels else none
  | _ => none

/-- Modelled from the spec: one tracker step of the missing
GameStateTracker on a decoded frame's signal vector — if the fused
trigger fires, record the trigger time, emit exactly one Recommendation
and drop back to NotPending (single-shot); otherwise change nothing. -/
def trackerStep (th : Thresholds) (st : SessionState) (now : Nat)
    (s : DetectionSignal) : SessionState × List Recommendation :=
  if triggerFires st s th now then
    ({ st with lastTriggerTime := some now, turnActive := false },
     [decisionEngine st none none])
  else
    (st, [])

/-- Modelled from the spec: the full per-frame pipeline step — decode,
detect (the detector is a black-box pure function parameter), fuse and
possibly emit.  A frame that fails to decode is a silent no-op. -/
def processFrame (detect : List Nat → DetectionSignal) (th : Thresholds)
    (st : SessionState) (now : Nat) (buf : List Nat) :
    SessionState × List Recommendation :=
  match decodeFrame buf with
  | none => (st, [])
  | some px => trackerStep th st now (detect px)

/-- Run the tracker over a timed sequence of signal vectors, returning
the timestamps at which a Recommendation was emitted. -/
def runEmits (th : Thresholds) (st : SessionState) :
    List (Nat × DetectionSignal) → List Nat
  | [] => []
  | (t, s) :: rest =>
    let step := trackerStep th st t s
    (if step.2 = [] then [] else [t]) ++ runEmits th step.1 rest

/-- Run the full pipeline over a timed sequence of raw frame buffers,
returning the emitted Recommendations in order. -/
def runPipeline (detect : List Nat → DetectionSignal) (th : Thresholds)
    (st : SessionState) : List (Nat × List Nat) → List Recommendation
  | [] => []
  | (t, buf) :: rest =>
    let step := processFrame detect th st t buf
    step.2 ++ runPipeline detect th step.1 rest

/-- The per-frame pipeline step as a step relation, mirroring the
control flow of `processFrame` case by case. -/
inductive StepRel (detect : List Nat → DetectionSignal)
    (th : Thresholds) (st : SessionState) (now : Nat) (buf : List Nat) :
    SessionState × List Recommendation → Prop
  | decodeFail :
      decodeFrame buf = none →
      StepRel detect th st now buf (st, [])
  | fire (px : List Nat) :
      decodeFrame buf = some px →
      triggerFires st (detect px) th now = true →
      StepRel detect th st now buf
        ({ st with lastTriggerTime := some now, turnActive := false },
         [decisionEngine st none none])
  | noFire (px : List Nat) :
      decodeFrame buf = some px →
      triggerFires st (detect px) th now = false →
      StepRel detect th st now buf (st, [])

/-- The pipeline run as a relation over a timed frame sequence. -/
inductive RunRel (detect : List Nat → DetectionSignal)
    (th : Thresholds) :
    SessionState → List (Nat × List Nat) → List Recommendation → Prop
  | nil (st : SessionState) : RunRel detect th st [] []
  | cons (st st' : SessionState) (t : Nat) (buf : List Nat)
      (out : List Recommendation) (rest : List (Nat × List Nat))
      (outRest : List Recommendation) :
      StepRel detect th st t buf (st', out) →
      RunRel detect th st' rest outRest →
      RunRel detect th st ((t, buf) :: rest) (out ++ outRest)

/-! ## Concrete fixtures used by scenario conjuncts and witnesses -/

/-- The spec scenario's signal vector: controls 0.9, timer 0.2,
highlight 0.85, in per-mille. -/
def scenarioSignal : DetectionSignal :=
  ⟨900, 200, 850⟩

/-- A uniform 0.5 per-signal confidence threshold vector, in
per-mille. -/
def stdThresholds : Thresholds :=
  ⟨500, 500, 500⟩

/-- A fresh session: hand in progress, no prior trigger, 3000 ms
cooldown window. -/
def freshSession : SessionState :=
  ⟨.handInProgress, .preflop, 0, [], [], [], false, none, 3000⟩

/-- The spec burst scenario: identical high-signal frames every 100 ms
for 3 seconds. -/
def burstFrames : List (Nat × DetectionSignal) :=
  (List.range 30).map (fun i => (i * 100, scenarioSignal))

/-! ## Theorems -/

/-- C3 counterexample: the reconnect delay sequence of `connectWebSocket`
is `min (2000 + n*1000) 10000`, which plateaus at 10000 ms from the
ninth retry on — consecutive delays are equal there, so the delay
sequence is not strictly increasing (and not exponential). -/
theorem C3_counterexample :
    reconnectDelay 8 = 10000 ∧ reconnectDelay 9 = 10000 ∧
    ¬ reconnectDelay 8 < reconnectDelay 9 := by
  refine ⟨rfl, rfl, ?_⟩
  decide

/-- C3 (amended): on an unexpected disconnect while analyzing, the
client retries with a bounded, monotonically non-decreasing
(linear-then-capped) backoff delay, stops retrying at the attempt
ceiling of 20 retries, and at or past the ceiling surfaces the terminal
connection-failure state instead of retrying. -/
theorem C3_reconnect_bounded_backoff (a b rc : Nat) (analyzing : Bool)
    (hab : a ≤ b) :
    reconnectDelay a ≤ reconnectDelay b ∧
    reconnectDelay rc ≤ 10000 ∧
    (rc < 20 →
      onClose true rc =
        CloseAction.scheduleRetry (reconnectDelay rc) (rc + 1)) ∧
    (20 ≤ rc → onClose analyzing rc = CloseAction.terminalFailure) := by
  refine ⟨?_, ?_, ?_, ?_⟩
  · unfold reconnectDelay
    omega
  · unfold reconnectDelay
    omega
  · intro h
    unfold onClose
    simp [h]
  · intro h
    unfold onClose
    have h1 : ¬ (analyzing = true ∧ rc < 20) := by omega
    rw [if_neg h1, if_pos h]

/-- C3 witness: a concrete retry under the ceiling and a concrete
terminal failure at the ceiling. -/
theorem C3_reconnect_witness :
    onClose true 5 = CloseAction.scheduleRetry (reconnectDelay 5) 6 ∧
    onClose false 20 = CloseAction.terminalFailure := by
  constructor
  · exact (C3_reconnect_bounded_backoff 0 5 5 false (by decide)).2.2.1
      (by decide)
  · exact (C3_reconnect_bounded_backoff 0 20 20 false (by decide)).2.2.2
      (by decide)

/-- C8: the `ws.onmessage` handler distinguishes exactly the two message
kinds by `type`: a recommendation message updates the displayed
recommendation and produces speech output; a status message changes
nothing; an unknown type or an unparseable message is absorbed with no
state change — and the handler is a total function, so no error leaves
it. -/
theorem C8_onmessage_two_kinds (last action m t : String)
    (p e r : Option String) :
    onMessage last (.recommendation action p e r) =
      (action, some (speechFor action p e r)) ∧
    onMessage last (.statusMsg m) = (last, none) ∧
    onMessage last (.otherType t) = (last, none) ∧
    onMessage last .malformed = (last, none) :=
  ⟨rfl, rfl, rfl, rfl⟩

/-- C10: a tick of the 100 ms frame-capture loop sends a frame only when
the video element, the canvas element and an OPEN socket all exist at
the tick and the socket is still OPEN inside the blob callback; a tick
failing the element or socket checks is a silent no-op, so no frame is
ever sent on a non-OPEN socket. -/
theorem C10_frame_sent_only_when_open (env : TickEnv) :
    (frameTickSends env = true →
      env.videoPresent = true ∧ env.canvasPresent = true ∧
      env.wsStateAtTick = .opened ∧ env.wsStateAtCallback = .opened) ∧
    ((env.videoPresent = false ∨ env.canvasPresent = false ∨
      env.wsStateAtTick ≠ .opened ∨ env.wsStateAtCallback ≠ .opened) →
      frameTickSends env = false) := by
  obtain ⟨v, c, w1, cx, b, w2⟩ := env
  cases v <;> cases c <;> cases w1 <;> cases cx <;> cases b <;>
    cases w2 <;> exact ⟨by decide, by decide⟩

/-- C10 witness: with everything present and both socket checks OPEN the
send goes through to an OPEN socket; with the video element missing the
tick is a no-op. -/
theorem C10_frame_capture_witness :
    (TickEnv.mk true true .opened true true .opened).wsStateAtCallback =
      WsReadyState.opened ∧
    frameTickSends (TickEnv.mk false true .opened true true .opened) =
      false := by
  constructor
  · exact ((C10_frame_sent_only_when_open
      (TickEnv.mk true true .opened true true .opened)).1 (by decide)).2.2.2
  · exact (C10_frame_sent_only_when_open
      (TickEnv.mk false true .opened true true .opened)).2 (Or.inl rfl)

/-- C1: the quorum invariant of the turn-trigger fusion — with fewer
than two of the three signals above their thresholds no trigger fires,
and with at least two above threshold and an expired cooldown the
trigger fires and exactly one Recommendation is emitted. -/
theorem C1_quorum_trigger (st : SessionState) (s : DetectionSignal)
    (th : Thresholds) (now : Nat) :
    (aboveCount s th < 2 → triggerFires st s th now = false) ∧
    (2 ≤ aboveCount s th → cooldownExpired st now = true →
      triggerFires st s th now = true ∧
      (trackerStep th st now s).2.length = 1) := by
  constructor
  · intro h
    have hq : quorum s th = false := by
      simp [quorum]
      omega
    simp [triggerFires, hq]
  · intro h2 hcd
    have hq : quorum s th = true := by
      simp [quorum, h2]
    have ht : triggerFires st s th now = true := by
      simp [triggerFires, hq, hcd]
    exact ⟨ht, by simp [trackerStep, ht]⟩

/-- C1 witness: the spec scenario signals (controls 0.9, timer 0.2,
highlight 0.85) against 0.5 thresholds with the cooldown expired fire a
trigger with exactly one Recommendation; and no single high signal alone
fires. -/
theorem C1_quorum_witness :
    triggerFires freshSession scenarioSignal stdThresholds 5000 = true ∧
    (trackerStep stdThresholds freshSession 5000 scenarioSignal).2.length
      = 1 ∧
    triggerFires freshSession ⟨900, 0, 0⟩ stdThresholds 5000
      = false := by
  obtain ⟨h1, h2⟩ :=
    (C1_quorum_trigger freshSession scenarioSignal stdThresholds 5000).2
      (by decide) (by decide)
  refine ⟨h1, h2, ?_⟩
  exact (C1_quorum_trigger freshSession ⟨900, 0, 0⟩ stdThresholds
    5000).1 (by decide)

/-- C4: when a tracker update reports no reset the street rank never
decreases; an observed street regression yields the new-hand reset
`HandInProgress → Idle → HandInProgress` (board replaced by the new
observation, phase back to hand-in-progress) and is handled by the total
update function, never as an error. -/
theorem C4_street_monotone (st : SessionState) (board : List String) :
    ((updateStreet st board).2 = false →
      st.street.rank ≤ (updateStreet st board).1.street.rank) ∧
    ((streetOfBoardCount board.length).rank < st.street.rank →
      (updateStreet st board).2 = true ∧
      (updateStreet st board).1 = newHandReset st board ∧
      (updateStreet st board).1.phase = Phase.handInProgress ∧
      (updateStreet st board).1.boardCards = board) := by
  constructor
  · intro h
    unfold updateStreet at *
    by_cases hlt :
        (streetOfBoardCount board.length).rank < st.street.rank
    · simp [hlt] at h
    · simp [hlt]
      omega
  · intro hlt
    unfold updateStreet
    simp [hlt, newHandReset]

/-- C4 witness: a river-street session observing an empty board resets
(street regression handled as new hand); the same session observing a
five-card board keeps its street rank. -/
theorem C4_street_witness :
    (updateStreet
      ⟨.handInProgress, .river, 0, ["a", "b", "c", "d", "e"], [], [],
        false, none, 3000⟩ []).2 = true ∧
    (updateStreet
      ⟨.handInProgress, .river, 0, ["a", "b", "c", "d", "e"], [], [],
        false, none, 3000⟩ []).1.boardCards = ([] : List String) ∧
    Street.rank .river ≤
      (updateStreet
        ⟨.handInProgress, .river, 0, ["a", "b", "c", "d", "e"], [], [],
          false, none, 3000⟩ ["a", "b", "c", "d", "e"]).1.street.rank := by
  refine ⟨?_, ?_, ?_⟩
  · exact ((C4_street_monotone
      ⟨.handInProgress, .river, 0, ["a", "b", "c", "d", "e"], [], [],
        false, none, 3000⟩ []).2 (by decide)).1
  · exact ((C4_street_monotone
      ⟨.handInProgress, .river, 0, ["a", "b", "c", "d", "e"], [], [],
        false, none, 3000⟩ []).2 (by decide)).2.2.2
  · exact (C4_street_monotone
      ⟨.handInProgress, .river, 0, ["a", "b", "c", "d", "e"], [], [],
        false, none, 3000⟩ ["a", "b", "c", "d", "e"]).1 (by decide)

/-- C5: a field that fails to parse keeps its previous known value — a
failed pot parse leaves `potAmount` unchanged (never nulled or zeroed),
a failed pot parse does not block a successful stack update, and across
two cycles (success on frame N-1, failure on frame N) the pot equals the
frame N-1 value. -/
theorem C5_last_known_good (st : SessionState) (f g : ExtractedFacts)
    (v : ℚ) (m : List (Nat × ℚ)) :
    (f.potAmount = none → (mergeFacts st f).potAmount = st.potAmount) ∧
    (f.stackAmounts = some m → (mergeFacts st f).stackAmounts = m) ∧
    (g.potAmount = some v → f.potAmount = none →
      (mergeFacts (mergeFacts st g) f).potAmount = v) := by
  refine ⟨?_, ?_, ?_⟩
  · intro h
    simp [mergeFacts, h]
  · intro h
    simp [mergeFacts, h]
  · intro hg hf
    simp [mergeFacts, hg, hf]

/-- C5 witness: pot parsed as 7 on frame N-1, pot unparsed on frame N
with stacks parsing fine — the pot stays 7 and the stacks update. -/
theorem C5_last_known_good_witness :
    (mergeFacts (mergeFacts freshSession ⟨some 7, none, none⟩)
      ⟨none, some [(1, 50)], none⟩).potAmount = 7 ∧
    (mergeFacts (mergeFacts freshSession ⟨some 7, none, none⟩)
      ⟨none, some [(1, 50)], none⟩).stackAmounts = [(1, 50)] := by
  constructor
  · exact (C5_last_known_good
      (mergeFacts freshSession ⟨some 7, none, none⟩)
      ⟨none, some [(1, 50)], none⟩ ⟨some 7, none, none⟩ 7
      [(1, 50)]).2.2 rfl rfl
  · exact (C5_last_known_good
      (mergeFacts freshSession ⟨some 7, none, none⟩)
      ⟨none, some [(1, 50)], none⟩ ⟨some 7, none, none⟩ 7
      [(1, 50)]).2.1 rfl

/-- C6: a frame that fails to decode is a silent no-op of the pipeline —
the session state is unchanged and no Recommendation is emitted, and
`processFrame` is total so no error reaches the caller. -/
theorem C6_bad_frame_noop (detect : List Nat → DetectionSignal)
    (th : Thresholds) (st : SessionState) (now : Nat) (buf : List Nat)
    (h : decodeFrame buf = none) :
    processFrame detect th st now buf = (st, []) := by
  simp [processFrame, h]

/-- C6 witness: a concrete malformed buffer (header claims 2×2 pixels,
payload has one) is a no-op at a concrete session. -/
theorem C6_bad_frame_witness :
    processFrame (fun _ => scenarioSignal) stdThresholds freshSession
      1000 [2, 2, 0] = (freshSession, []) :=
  C6_bad_frame_noop (fun _ => scenarioSignal) stdThresholds freshSession
    1000 [2, 2, 0] (by decide)

/-- C9: once TurnPending is asserted the DecisionEngine returns exactly
one Recommendation whose action is in the closed set
{Fold, Call, Raise-to-X}, and when estimated equity exactly equals pot
odds the action is Call. -/
theorem C9_decision_closed_set_tie_call (st : SessionState)
    (betFacing stats : Option ℚ) (hturn : st.turnActive = true) :
    ((∃ x, (decisionEngine st betFacing stats).action =
        GtoAction.raiseTo x) ∨
      (decisionEngine st betFacing stats).action = GtoAction.call ∨
      (decisionEngine st betFacing stats).action = GtoAction.fold) ∧
    (estimatedEquity stats =
        potOddsOf st.potAmount (betOrZero betFacing) →
      (decisionEngine st betFacing stats).action = GtoAction.call) := by
  have key : ∀ pot equity odds : ℚ,
      ((∃ x, chooseAction pot equity odds = GtoAction.raiseTo x) ∨
        chooseAction pot equity odds = GtoAction.call ∨
        chooseAction pot equity odds = GtoAction.fold) ∧
      (equity = odds → chooseAction pot equity odds = GtoAction.call) := by
    intro pot equity odds
    constructor
    · unfold chooseAction
      rcases lt_trichotomy odds equity with h | h | h
      · exact Or.inl ⟨pot, by rw [if_pos h]⟩
      · refine Or.inr (Or.inl ?_)
        rw [if_neg (by rw [h]; exact lt_irrefl equity),
          if_neg (by rw [h]; exact lt_irrefl equity)]
      · refine Or.inr (Or.inr ?_)
        rw [if_neg (not_lt_of_gt h), if_pos h]
    · intro heq
      unfold chooseAction
      rw [if_neg (by rw [heq]; exact lt_irrefl odds),
        if_neg (by rw [heq]; exact lt_irrefl odds)]
  have hact : (decisionEngine st betFacing stats).action =
      chooseAction st.potAmount (estimatedEquity stats)
        (potOddsOf st.potAmount (betOrZero betFacing)) := rfl
  constructor
  · rw [hact]
    exact (key st.potAmount (estimatedEquity stats)
      (potOddsOf st.potAmount (betOrZero betFacing))).1
  · intro h
    rw [hact]
    exact (key st.potAmount (estimatedEquity stats)
      (potOddsOf st.potAmount (betOrZero betFacing))).2 h

/-- C9 witness: pot 1, bet-facing 1 (pot odds 1/2), stats equity 1/2 —
an exact tie — yields Call on a turn-pending session. -/
theorem C9_decision_witness :
    (decisionEngine
      ⟨.handInProgress, .preflop, 1, [], [], [], true, none, 3000⟩
      (some 1) (some (1 / 2))).action = GtoAction.call := by
  refine (C9_decision_closed_set_tie_call
    ⟨.handInProgress, .preflop, 1, [], [], [], true, none, 3000⟩
    (some 1) (some (1 / 2)) rfl).2 ?_
  show estimatedEquity (some (1 / 2)) = potOddsOf 1 1
  unfold estimatedEquity potOddsOf
  norm_num

/-- Helper: if the trigger fires then the cooldown had expired, so a
recorded previous trigger time lies at least a cooldown window back. -/
theorem triggerFires_cooldown (st : SessionState)
    (s : DetectionSignal) (th : Thresholds) (t t0 : Nat)
    (hfire : triggerFires st s th t = true)
    (hlast : st.lastTriggerTime = some t0) :
    st.cooldownWindow ≤ t - t0 := by
  have hcd : cooldownExpired st t = true := by
    simp [triggerFires, Bool.and_eq_true] at hfire
    exact hfire.2
  simpa [cooldownExpired, hlast] using hcd

/-- Helper: over chronologically ordered frames, the emitted trigger
timestamps are pairwise separated by at least the cooldown window, and
all of them lie at least a window after any previously recorded
trigger. -/
theorem runEmits_gap_aux (th : Thresholds) (cd : Nat) :
    ∀ (frames : List (Nat × DetectionSignal)) (st : SessionState),
    st.cooldownWindow = cd →
    (frames.map Prod.fst).Pairwise (· < ·) →
    (∀ t0, st.lastTriggerTime = some t0 → ∀ p ∈ frames, t0 ≤ p.1) →
    (runEmits th st frames).Pairwise (fun a b => a + cd ≤ b) ∧
    ∀ t0, st.lastTriggerTime = some t0 →
      ∀ e ∈ runEmits th st frames, t0 + cd ≤ e := by
  intro frames
  induction frames with
  | nil =>
    intro st hcd hsort hlb
    refine ⟨by simp [runEmits], ?_⟩
    intro t0 h e he
    simp [runEmits] at he
  | cons p rest ih =>
    obtain ⟨t, s⟩ := p
    intro st hcd hsort hlb
    rw [List.map_cons, List.pairwise_cons] at hsort
    obtain ⟨hthead, hsort'⟩ := hsort
    by_cases hfire : triggerFires st s th t = true
    · have hstep : trackerStep th st t s =
          ({ st with lastTriggerTime := some t, turnActive := false },
            [decisionEngine st none none]) := by
        simp [trackerStep, hfire]
      have hemits : runEmits th st ((t, s) :: rest) =
          t :: runEmits th
            { st with lastTriggerTime := some t, turnActive := false }
            rest := by
        simp [runEmits, hstep]
      have hlb' : ∀ t0,
          ({ st with lastTriggerTime := some t, turnActive := false } :
            SessionState).lastTriggerTime = some t0 →
          ∀ p ∈ rest, t0 ≤ p.1 := by
        intro t0 h p hp
        have ht0 : t0 = t := by
          simpa using h.symm
        subst ht0
        exact Nat.le_of_lt (hthead p.1 (List.mem_map_of_mem Prod.fst hp))
      obtain ⟨ihpw, ihlb⟩ := ih
        { st with lastTriggerTime := some t, turnActive := false }
        (by simpa using hcd) hsort' hlb'
      have htail : ∀ e ∈ runEmits th
          { st with lastTriggerTime := some t, turnActive := false }
          rest, t + cd ≤ e :=
        ihlb t rfl
      constructor
      · rw [hemits, List.pairwise_cons]
        exact ⟨htail, ihpw⟩
      · intro t0 hl e he
        rw [hemits] at he
        have ht0t : t0 ≤ t :=
          hlb t0 hl (t, s) (List.mem_cons_self _ _)
        have hgap : cd ≤ t - t0 := by
          have := triggerFires_cooldown st s th t t0 hfire hl
          omega
        rcases List.mem_cons.mp he with he | he
        · omega
        · have := htail e he
          omega
    · have hfire' : triggerFires st s th t = false := by
        simpa using hfire
      have hstep : trackerStep th st t s = (st, []) := by
        simp [trackerStep, hfire']
      have hemits : runEmits th st ((t, s) :: rest) =
          runEmits th st rest := by
        simp [runEmits, hstep]
      have hlb' : ∀ t0, st.lastTriggerTime = some t0 →
          ∀ p ∈ rest, t0 ≤ p.1 := by
        intro t0 h p hp
        exact hlb t0 h p (List.mem_cons_of_mem _ hp)
      obtain ⟨ihpw, ihlb⟩ := ih st hcd hsort' hlb'
      rw [hemits]
      exact ⟨ihpw, ihlb⟩

/-- C2: within one session over chronologically ordered frames, two
emitted trigger times are always separated by at least the cooldown
window — so no second Recommendation is emitted within the window of a
previous one — and the spec burst scenario (identical high-signal frames
every 100 ms for 3 s, 3000 ms cooldown) emits exactly one
Recommendation, at time 0. -/
theorem C2_cooldown_no_double_emit (th : Thresholds)
    (frames : List (Nat × DetectionSignal)) (st : SessionState)
    (t1 t2 : Nat)
    (hsort : (frames.map Prod.fst).Pairwise (· < ·))
    (hfresh : st.lastTriggerTime = none)
    (hsub : [t1, t2].Sublist (runEmits th st frames)) :
    st.cooldownWindow ≤ t2 - t1 ∧
    runEmits stdThresholds freshSession burstFrames = [0] := by
  constructor
  · have hlb : ∀ t0, st.lastTriggerTime = some t0 →
        ∀ p ∈ frames, t0 ≤ p.1 := by
      intro t0 h
      rw [hfresh] at h
      exact absurd h (by simp)
    have hpw :=
      (runEmits_gap_aux th st.cooldownWindow frames st rfl hsort hlb).1
    have hpair := hpw.sublist hsub
    rw [List.pairwise_cons] at hpair
    have := hpair.1 t2 (List.mem_cons_self _ _)
    omega
  · decide

/-- C2 witness: two high-signal frames exactly one cooldown window apart
both emit, the theorem yields the window-sized gap, and the burst
scenario emits exactly once. -/
theorem C2_cooldown_witness :
    freshSession.cooldownWindow ≤ 3000 - 0 ∧
    runEmits stdThresholds freshSession burstFrames = [0] := by
  exact C2_cooldown_no_double_emit stdThresholds
    [(0, scenarioSignal), (3000, scenarioSignal)] freshSession 0 3000
    (by decide) rfl (by decide)

/-- Helper: the per-frame step relation is deterministic — two
derivations for the same state and frame produce the same state and
output. -/
theorem stepRel_deterministic (detect : List Nat → DetectionSignal)
    (th : Thresholds) (st : SessionState) (now : Nat) (buf : List Nat)
    (o1 o2 : SessionState × List Recommendation)
    (h1 : StepRel detect th st now buf o1)
    (h2 : StepRel detect th st now buf o2) : o1 = o2 := by
  cases h1 with
  | decodeFail hd1 =>
    cases h2 with
    | decodeFail hd2 => rfl
    | fire px hd2 hf2 => rw [hd1] at hd2; exact absurd hd2 (by simp)
    | noFire px hd2 hf2 => rfl
  | fire px hd1 hf1 =>
    cases h2 with
    | decodeFail hd2 => rw [hd1] at hd2; exact absurd hd2 (by simp)
    | fire px' hd2 hf2 => rfl
    | noFire px' hd2 hf2 =>
      rw [hd1] at hd2
      have hpx : px = px' := by simpa using hd2
      rw [hpx] at hf1
      rw [hf1] at hf2
      exact absurd hf2 (by simp)
  | noFire px hd1 hf1 =>
    cases h2 with
    | decodeFail hd2 => rfl
    | fire px' hd2 hf2 =>
      rw [hd1] at hd2
      have hpx : px = px' := by simpa using hd2
      rw [hpx] at hf1
      rw [hf1] at hf2
      exact absurd hf2 (by simp)
    | noFire px' hd2 hf2 => rfl

/-- C7: the pipeline is deterministic — with a fixed detector and a
fixed timed frame sequence, any two runs of the step relation from the
same initial session state produce the same sequence of
Recommendations. -/
theorem C7_pipeline_deterministic (detect : List Nat → DetectionSignal)
    (th : Thresholds) :
    ∀ (frames : List (Nat × List Nat)) (st : SessionState)
      (out1 out2 : List Recommendation),
    RunRel detect th st frames out1 →
    RunRel detect th st frames out2 → out1 = out2 := by
  intro frames
  induction frames with
  | nil =>
    intro st o1 o2 h1 h2
    cases h1
    cases h2
    rfl
  | cons p rest ih =>
    intro st o1 o2 h1 h2
    cases h1 with
    | cons _ st1 t buf out _ outRest hstep hrest =>
      cases h2 with
      | cons _ st2 _ _ out' _ outRest' hstep' hrest' =>
        have heq := stepRel_deterministic detect th st t buf
          (st1, out) (st2, out') hstep hstep'
        have hst : st1 = st2 := congrArg Prod.fst heq
        have hout : out = out' := congrArg Prod.snd heq
        subst hst
        subst hout
        rw [ih st1 outRest outRest' hrest hrest']

/-- C7 witness: a concrete one-frame run derivation fed twice to the
determinism theorem. -/
theorem C7_determinism_witness :
    [decisionEngine freshSession none none] ++ ([] : List Recommendation)
      = [decisionEngine freshSession none none] ++ [] := by
  have hd : RunRel (fun _ => scenarioSignal) stdThresholds freshSession
      [(0, [1, 1, 5])]
      ([decisionEngine freshSession none none] ++ []) := by
    refine RunRel.cons freshSession
      { freshSession with lastTriggerTime := some 0, turnActive := false }
      0 [1, 1, 5] [decisionEngine freshSession none none] [] [] ?_
      (RunRel.nil
        { freshSession with lastTriggerTime := some 0, turnActive := false })
    exact StepRel.fire [5] (by decide) (by decide)
  exact C7_pipeline_deterministic (fun _ => scenarioSignal)
    stdThresholds [(0, [1, 1, 5])] freshSession _ _ hd hd

end PokerGtoVision
